import Mathlib

/-!
Verification of the conference-client session core
(`talk/ics/sdk/conference/conferenceclient.cc`, `talk/ics/sdk/base/stream.cc`)
against its natural-language specification.

The wire payloads (`sio::message::ptr` trees) are modelled by `SioMsg`.
Accessor semantics follow the socket.io message class with assertions
disabled (release build): `get_string` / `get_int` / `get_vector` /
`get_map` on a message of the wrong kind return a default value
(`""` / `0` / `[]` / empty map), while any method call made through a
null `message::ptr` (a map access for a missing key yields a null
pointer) is undefined behavior.  Outcomes of operations that can hit
undefined behavior are wrapped in `SectionRes`/`Option`, with a
distinguished constructor (`SectionRes.ub`, resp. `none`) for the
undefined case.

Observer handles are modelled as `Nat` (the C++ code compares observer
addresses).  Callbacks and observer notifications delivered by an
operation are returned as explicit lists of `Delivery` values, split
into the ones posted onto the event dispatch queue
(`event_queue_->PostTask`) and the ones invoked directly on the calling
thread.
-/

namespace Oms

/-- Model of `sio::message`: a string / integer / object (string-keyed
map) / array tree, as delivered by the signaling transport. -/
inductive SioMsg where
  | str (s : String)
  | int (n : Int)
  | obj (fields : List (String × SioMsg))
  | arr (elems : List SioMsg)

/-- Model of `get_map()` under release semantics: the field list of an
object message, and the static empty map for any other kind. -/
def SioMsg.getMapFields : SioMsg → List (String × SioMsg)
  | .obj fields => fields
  | _ => []

/-- Model of `msg->get_map()["k"]`: `some` the stored message, `none`
for a null pointer (missing key, or non-object receiver). -/
def SioMsg.getField (m : SioMsg) (k : String) : Option SioMsg :=
  m.getMapFields.lookup k

/-- Model of `get_flag() == sio::message::flag_object`. -/
def SioMsg.isObj : SioMsg → Bool
  | .obj _ => true
  | _ => false

/-- Model of `get_flag() == sio::message::flag_string`. -/
def SioMsg.isStrF : SioMsg → Bool
  | .str _ => true
  | _ => false

/-- Model of `get_flag() == sio::message::flag_array`. -/
def SioMsg.isArr : SioMsg → Bool
  | .arr _ => true
  | _ => false

/-- Model of `get_string()` under release semantics: the value for a
string message, the static empty string otherwise. -/
def SioMsg.getStr : SioMsg → String
  | .str s => s
  | _ => ""

/-- Model of `get_int()` under release semantics: the value for an
integer message, `0` otherwise. -/
def SioMsg.getInt : SioMsg → Int
  | .int n => n
  | _ => 0

/-- Model of `get_vector()` under release semantics: the elements of an
array message, the static empty vector otherwise. -/
def SioMsg.getVec : SioMsg → List SioMsg
  | .arr l => l
  | _ => []

/-- Outcome of an operation that may either complete, return early
cleanly ("this fragment is ignored"), or run into undefined behavior
(null `message::ptr` dereference, `vector::erase(end())`, an uncaught
`std::stod`/`substr` exception, or a method call on a null
`ConferenceInfo`). -/
inductive SectionRes (α : Type) where
  | ub
  | bail
  | ok (a : α)
deriving DecidableEq, Repr

/- ---------------------------------------------------------------
Observer registries.

`Participant::AddObserver` / `ConferenceClient::AddObserver` /
`Stream::AddObserver` all run the same code: a `find_if` by address
over `observers_`, returning early on a hit, else `push_back`.
`RemoveObserver` in all three classes runs
`observers_.erase(std::find_if(...))` with no not-found check:
when the handle is absent, `find_if` returns `end()` and
`vector::erase(end())` is undefined behavior.
--------------------------------------------------------------- -/

/-- Model of `AddObserver` (identical in `Participant`,
`ConferenceClient` and `Stream`): append the handle unless an entry
with the same address is already present. -/
def addObserver (l : List Nat) (o : Nat) : List Nat :=
  if o ∈ l then l else l ++ [o]

/-- Model of `RemoveObserver` (identical in `Participant`,
`ConferenceClient` and `Stream`): erase the result of a linear search.
`none` models `vector::erase(end())` — undefined behavior — for an
absent handle. -/
def removeObserver (l : List Nat) (o : Nat) : Option (List Nat) :=
  if o ∈ l then some (l.erase o) else none

/-- A conference participant as built by `ParseUser`
(`new Participant(id, user_name, role)`); the record fields follow that
constructor call's argument order.  `observers` is the participant's
own observer registry. -/
structure ParticipantR where
  pid : String
  userName : String
  role : String
  observers : List Nat := []
deriving DecidableEq, Repr

/-- The variant tag stored in `added_stream_type_`
(`ConferenceClient::StreamType`). -/
inductive StreamType where
  | camera
  | screen
  | mix
deriving DecidableEq, Repr

/-- `AudioSourceInfo` of a remote stream. -/
inductive AudioSourceInfo where
  | mic
  | screenCast
  | file
  | mixed
  | unknown
deriving DecidableEq, Repr

/-- `VideoSourceInfo` of a remote stream. -/
inductive VideoSourceInfo where
  | camera
  | screenCast
  | file
  | mixed
  | unknown
deriving DecidableEq, Repr

/-- The `audio_source_names` table of `conferenceclient.cc`. -/
def audioSourceNames : List (String × AudioSourceInfo) :=
  [("mic", .mic), ("screen-cast", .screenCast), ("raw-file", .file),
   ("encoded-file", .file), ("mcu", .mixed)]

/-- The `video_source_names` table of `conferenceclient.cc`. -/
def videoSourceNames : List (String × VideoSourceInfo) :=
  [("camera", .camera), ("screen-cast", .screenCast), ("raw-file", .file),
   ("encoded-file", .file), ("mcu", .mixed)]

/-- `AudioCodecParameters(GetAudioCodecFromString(codec), channel_num,
sample_rate)`; the codec is kept as its wire name (the name-to-enum
table lives outside this repository). -/
structure AudioCodecParametersR where
  name : String
  channelNum : Int
  sampleRate : Int
deriving DecidableEq, Repr

/-- `VideoCodecParameters(GetVideoCodecFromString(codec), profile)`. -/
structure VideoCodecParametersR where
  name : String
  profile : String
deriving DecidableEq, Repr

/-- A video resolution (width, height). -/
structure ResolutionR where
  w : Int
  h : Int
deriving DecidableEq, Repr

/-- The video half of `PublicationSettings` filled in by
`ParseStreamInfo`; fields keep their zero defaults when the matching
wire field is absent. -/
structure VideoPublicationSettingsR where
  codec : VideoCodecParametersR
  resolution : Option ResolutionR := none
  frameRate : Int := 0
  bitrate : Int := 0
  keyframeInterval : Int := 0
deriving DecidableEq, Repr

/-- `PublicationSettings` as assembled by `ParseStreamInfo`; a `none`
sub-record models the default-constructed value that is never
assigned. -/
structure PublicationSettingsR where
  audioCodec : Option AudioCodecParametersR := none
  video : Option VideoPublicationSettingsR := none
deriving DecidableEq, Repr

/-- `VideoSubscriptionCapabilities`.  Bitrate multipliers keep the
numeral text left after the one-character prefix strip (the numeric
value itself is irrelevant to every claim). -/
structure VideoSubscriptionCapabilitiesR where
  codecs : List VideoCodecParametersR := []
  resolutions : List ResolutionR := []
  frameRates : List Int := []
  bitrateMultipliers : List String := []
  keyframeIntervals : List Int := []
deriving DecidableEq, Repr

/-- `SubscriptionCapabilities`. -/
structure SubscriptionCapabilitiesR where
  audioCodecs : List AudioCodecParametersR := []
  video : VideoSubscriptionCapabilitiesR := {}
deriving DecidableEq, Repr

/-- A remote stream as constructed by `ParseStreamInfo`
(`RemoteCameraStream` / `RemoteScreenStream` / `RemoteMixedStream`),
with the stream's own state (`ended_`) and observer registry. -/
structure RemoteStreamR where
  sid : String
  origin : String
  view : String := ""
  hasAudio : Bool := false
  hasVideo : Bool := false
  ended : Bool := false
  attributes : List (String × String) := []
  audioSource : AudioSourceInfo := .unknown
  videoSource : VideoSourceInfo := .unknown
  caps : SubscriptionCapabilitiesR := {}
  settings : PublicationSettingsR := {}
  observers : List Nat := []
deriving DecidableEq, Repr

/-- A callback or observer notification delivered by the client.  An
operation reports separately which of these it posts onto the event
dispatch queue and which it invokes directly. -/
inductive Delivery where
  | joinSuccess
  | failureCb (msg : String)
  | participantJoined (observer : Nat) (pid : String)
  | streamAdded (observer : Nat) (sid : String)
  | streamEnded (observer : Nat) (sid : String)
  | participantLeft (observer : Nat) (pid : String)
  | messageReceived (observer : Nat) (sender text : String)
  | serverDisconnectedN (observer : Nat)
  | publishSuccess (sessionId : String)
  | subscribeSuccess (sessionId : String)
  | unpublishSuccess
  | unsubscribeSuccess
deriving DecidableEq, Repr

/-- The mutable state of one `ConferenceClient` together with its
`current_conference_info_` (flattened; `confInfoSet` is whether the
`ConferenceInfo` pointer is non-null).  Channels are identified by the
session id their `GetSessionId()` reports. -/
structure ClientState where
  connected : Bool := false
  confInfoSet : Bool := false
  selfParticipant : Option ParticipantR := none
  participants : List ParticipantR := []
  confStreams : List RemoteStreamR := []
  observers : List Nat := []
  publishPcs : List String := []
  subscribePcs : List String := []
  publishIdLabelMap : List (String × String) := []
  subscribeIdLabelMap : List (String × String) := []
  addedStreams : List (String × RemoteStreamR) := []
  addedStreamType : List (String × StreamType) := []
deriving DecidableEq, Repr

/- ---------------------------------------------------------------
ConferenceInfo collection operations.
--------------------------------------------------------------- -/

/-- `ConferenceInfo::AddParticipant`: `push_back` guarded by
`ParticipantPresent` (idempotent insert). -/
def ConferenceInfoAddParticipant (ps : List ParticipantR) (p : ParticipantR) :
    List ParticipantR :=
  if ps.any (fun q => q.pid == p.pid) then ps else ps ++ [p]

/-- `ConferenceInfo::AddStream`: `push_back` guarded by
`RemoteStreamPresent` (idempotent insert). -/
def ConferenceInfoAddStream (ss : List RemoteStreamR) (r : RemoteStreamR) :
    List RemoteStreamR :=
  if ss.any (fun q => q.sid == r.sid) then ss else ss ++ [r]

/-- `ConferenceInfo::RemoveParticipantById`:
`participants_.erase(std::find_if(...))` with no not-found check.
`none` models `vector::erase(end())` — undefined behavior — when no
participant has the id. -/
def RemoveParticipantById (ps : List ParticipantR) (id : String) :
    Option (List ParticipantR) :=
  if ps.any (fun p => p.pid == id) then
    some (ps.eraseP (fun p => p.pid == id))
  else none

/-- `ConferenceInfo::RemoveStreamById`: same erase-without-check
pattern over `remote_streams_`. -/
def RemoveStreamById (ss : List RemoteStreamR) (id : String) :
    Option (List RemoteStreamR) :=
  if ss.any (fun r => r.sid == id) then
    some (ss.eraseP (fun r => r.sid == id))
  else none

/-- `ConferenceInfo::TriggerOnStreamEnded` plus
`Stream::TriggerOnStreamEnded`: locate the first stream with the id
(`break` after the hit), set its `ended_` flag and invoke `OnEnded` on
the stream's own observers directly (no dispatch queue).  Returns the
updated stream list and the direct deliveries. -/
def markEndedFirst : List RemoteStreamR → String →
    List RemoteStreamR × List Delivery
  | [], _ => ([], [])
  | r :: rest, id =>
    if r.sid == id then
      ({ r with ended := true } :: rest,
       r.observers.map (fun o => Delivery.streamEnded o r.sid))
    else
      let t := markEndedFirst rest id
      (r :: t.1, t.2)

/-- `ConferenceInfo::TriggerOnParticipantLeft` plus
`Participant::TriggerOnParticipantLeft`: locate the first participant
with the id (`break` after the hit) and invoke `OnLeft` on the
participant's own observers directly. -/
def triggerParticipantLeftFirst : List ParticipantR → String → List Delivery
  | [], _ => []
  | p :: rest, id =>
    if p.pid == id then p.observers.map (fun o => Delivery.participantLeft o p.pid)
    else triggerParticipantLeftFirst rest id

/- ---------------------------------------------------------------
ConferenceClient entry checks and simple operations.
--------------------------------------------------------------- -/

/-- `ConferenceClient::CheckSignalingChannelOnline`: `true` when
connected; otherwise posts the not-connected failure (when a failure
continuation was supplied) and yields `false`. -/
def CheckSignalingChannelOnline (hasOnFailure : Bool) (s : ClientState) :
    Bool × List Delivery :=
  if s.connected then (true, [])
  else
    (false,
     if hasOnFailure then
       [Delivery.failureCb "Conference server is not connected."]
     else [])

/-- `ConferenceClient::AddObserver` (same registry code as
`addObserver`, applied to the client's own observer list). -/
def ClientAddObserver (s : ClientState) (o : Nat) : ClientState :=
  { s with observers := addObserver s.observers o }

/-- `ConferenceClient::GetConferencePeerConnectionChannel`: linear scan
of `subscribe_pcs_` first, then `publish_pcs_`, by `GetSessionId()`. -/
def GetConferencePeerConnectionChannel (s : ClientState) (sessionId : String) :
    Option String :=
  match s.subscribePcs.find? (fun c => c == sessionId) with
  | some c => some c
  | none => s.publishPcs.find? (fun c => c == sessionId)

/-- The synchronous part of `ConferenceClient::Join`: when the
signaling channel is already connected, post the already-connected
failure (when supplied) and return; otherwise the method only touches
the external signaling channel (token normalization, observer
registration, `Connect`) — the connect result is handled later by
`JoinConnectHandler`.  Result: (state, queued deliveries, direct
deliveries). -/
def Join (hasOnFailure : Bool) (s : ClientState) :
    ClientState × List Delivery × List Delivery :=
  if s.connected then
    (s,
     (if hasOnFailure then
        [Delivery.failureCb "Already connected to conference server."]
      else []),
     [])
  else (s, [], [])

/-- Whether the per-session channel collaborator reported success or
failure for an asynchronous request. -/
inductive ChannelOutcome where
  | confirmed
  | failed
deriving DecidableEq, Repr

/-- The success lambda `ConferenceClient::UnPublish` hands to
`pcc->Unpublish` (lines 466-480): post `on_success` (when supplied)
onto the event queue, then erase the first channel whose session id
matches from `publish_pcs_`.  `publish_id_label_map_` is left
untouched. -/
def UnPublishSuccessEffect (sessionId : String) (hasOnSuccess : Bool)
    (s : ClientState) : ClientState × List Delivery × List Delivery :=
  ({ s with publishPcs := s.publishPcs.eraseP (fun c => c == sessionId) },
   (if hasOnSuccess then [Delivery.unpublishSuccess] else []),
   [])

/-- The success lambda `ConferenceClient::UnSubscribe` hands to
`pcc->Unsubscribe` (lines 507-521): post `on_success` (when supplied),
erase the first matching channel from `subscribe_pcs_`, and erase the
session id's entry from `subscribe_id_label_map_`. -/
def UnSubscribeSuccessEffect (sessionId : String) (hasOnSuccess : Bool)
    (s : ClientState) : ClientState × List Delivery × List Delivery :=
  ({ s with
      subscribePcs := s.subscribePcs.eraseP (fun c => c == sessionId),
      subscribeIdLabelMap :=
        s.subscribeIdLabelMap.eraseP (fun p => p.1 == sessionId) },
   (if hasOnSuccess then [Delivery.unsubscribeSuccess] else []),
   [])

/-- `ConferenceClient::UnPublish`: online check, registry lookup
(failure "Invalid publication id." when absent), then delegate to the
channel; on the channel's success run `UnPublishSuccessEffect`, on
failure the channel invokes `on_failure` itself and the client purges
nothing. -/
def UnPublish (sessionId : String) (hasOnSuccess hasOnFailure : Bool)
    (outcome : ChannelOutcome) (s : ClientState) :
    ClientState × List Delivery × List Delivery :=
  if ¬ s.connected then
    (s,
     (if hasOnFailure then
        [Delivery.failureCb "Conference server is not connected."]
      else []),
     [])
  else
    match GetConferencePeerConnectionChannel s sessionId with
    | none =>
      (s,
       (if hasOnFailure then [Delivery.failureCb "Invalid publication id."]
        else []),
       [])
    | some _ =>
      match outcome with
      | .confirmed => UnPublishSuccessEffect sessionId hasOnSuccess s
      | .failed => (s, [], [])

/-- `ConferenceClient::UnSubscribe`: same shape as `UnPublish` with the
subscribe-side failure message and success lambda. -/
def UnSubscribe (sessionId : String) (hasOnSuccess hasOnFailure : Bool)
    (outcome : ChannelOutcome) (s : ClientState) :
    ClientState × List Delivery × List Delivery :=
  if ¬ s.connected then
    (s,
     (if hasOnFailure then
        [Delivery.failureCb "Conference server is not connected."]
      else []),
     [])
  else
    match GetConferencePeerConnectionChannel s sessionId with
    | none =>
      (s,
       (if hasOnFailure then [Delivery.failureCb "Invalid subsciption id."]
        else []),
       [])
    | some _ =>
      match outcome with
      | .confirmed => UnSubscribeSuccessEffect sessionId hasOnSuccess s
      | .failed => (s, [], [])

/-- `ConferenceClient::OnCustomMessage`: iterates `observers_` and
calls `OnMessageReceived` on each one directly — nothing is posted to
the event queue.  Result: (queued, direct). -/
def OnCustomMessage (sender text : String) (s : ClientState) :
    List Delivery × List Delivery :=
  ([], s.observers.map (fun o => Delivery.messageReceived o sender text))

/-- `ConferenceClient::OnServerDisconnected`: resets the connected
flag, clears both channel lists and both id-label maps, then calls
`OnServerDisconnected` on every observer directly — nothing is posted
to the event queue.  Result: (state, queued, direct). -/
def OnServerDisconnected (s : ClientState) :
    ClientState × List Delivery × List Delivery :=
  ({ s with
      connected := false,
      publishIdLabelMap := [],
      publishPcs := [],
      subscribePcs := [],
      subscribeIdLabelMap := [] },
   [],
   s.observers.map (fun o => Delivery.serverDisconnectedN o))

/-- The success lambda `ConferenceClient::Publish` hands to
`pcc->Publish` (lines 337-345): wraps the session id into a
`ConferencePublication` and calls `on_success(cp)` directly, without
`PostTask`.  Result: (queued, direct). -/
def PublishSuccessCallback (sessionId : String) :
    List Delivery × List Delivery :=
  ([], [Delivery.publishSuccess sessionId])

/-- The success lambdas `ConferenceClient::Subscribe` hands to
`pcc->Subscribe` (one per stream variant, lines 403-438; all three call
`on_success(cp)` directly, without `PostTask`). -/
def SubscribeSuccessCallback (sessionId : String) :
    List Delivery × List Delivery :=
  ([], [Delivery.subscribeSuccess sessionId])

/- ---------------------------------------------------------------
The wire-payload parser: `ParseUser`, `AttributesFromStreamInfo`,
`ParseStreamInfo` and its callers.
--------------------------------------------------------------- -/

/-- `ConferenceClient::ParseUser`: requires an object payload with
string-typed `id`, `user`, `role`; yields the participant or `none`
(the C++ function returns `false`). -/
def ParseUser (m : SioMsg) : Option ParticipantR :=
  if !m.isObj then none
  else
    match m.getField "id", m.getField "user", m.getField "role" with
    | some i, some u, some r =>
      if i.isStrF && u.isStrF && r.isStrF then
        some { pid := i.getStr, userName := u.getStr, role := r.getStr }
      else none
    | _, _, _ => none

/-- `ConferenceClient::AttributesFromStreamInfo`: missing `attributes`
key or non-object value yields the empty map; entries with non-string
values are skipped. -/
def AttributesFromStreamInfo (pubInfo : SioMsg) : List (String × String) :=
  match pubInfo.getField "attributes" with
  | none => []
  | some attrs =>
    if !attrs.isObj then []
    else
      attrs.getMapFields.foldl
        (fun acc kv => if kv.2.isStrF then acc ++ [(kv.1, kv.2.getStr)] else acc)
        []

/-- What the audio part of `ParseStreamInfo` (lines 873-943)
computes. -/
structure AudioSectionR where
  audioSource : String := ""
  hasAudio : Bool := false
  audioCodecSetting : Option AudioCodecParametersR := none
  audioCaps : List AudioCodecParametersR := []
deriving DecidableEq, Repr

/-- The loop over the optional audio `format` array (lines 918-940).
`none` models the early `return` taken when an entry's codec name is
missing or not a string: the whole `ParseStreamInfo` call ends with no
side effect. -/
def parseOptionalAudioFormats : List SioMsg → Option (List AudioCodecParametersR)
  | [] => some []
  | f :: rest =>
    match f.getField "codec" with
    | none => none
    | some c =>
      if !c.isStrF then none
      else
        let codec0 := c.getStr
        let codec := if codec0 == "nellymoser" then "asao" else codec0
        let osr :=
          match f.getField "sampleRate" with
          | some m => m.getInt
          | none => 0
        let ocn :=
          match f.getField "channelNum" with
          | some m => m.getInt
          | none => 0
        (parseOptionalAudioFormats rest).map
          (fun tail => { name := codec, channelNum := ocn, sampleRate := osr } :: tail)

/-- The audio part of `ParseStreamInfo`: absent or non-object `audio`
is fine (stream without audio); a present `audio` must carry an object
`format` with a string `codec`, else the function bails out.  Note the
source reads `channelNum` via `audio_format_obj->get_int()` (line 903)
— `get_int` on the format object itself — which yields `0` with
assertions disabled. -/
def parseAudioSection (mediaInfo : SioMsg) : SectionRes AudioSectionR :=
  match mediaInfo.getField "audio" with
  | none => .ok {}
  | some audioInfo =>
    if !audioInfo.isObj then .ok {}
    else
      let audioSource :=
        match audioInfo.getField "source" with
        | some sm => if sm.isStrF then sm.getStr else ""
        | none => ""
      match audioInfo.getField "format" with
      | none => .bail
      | some fmt =>
        if !fmt.isObj then .bail
        else
          match fmt.getField "codec" with
          | none => .bail
          | some codecObj =>
            if !codecObj.isStrF then .bail
            else
              let codec := codecObj.getStr
              let sampleRate :=
                match fmt.getField "sampleRate" with
                | some m => m.getInt
                | none => 0
              let channelNum : Int :=
                if (fmt.getField "channelNum").isSome then fmt.getInt else 0
              let base : AudioSectionR :=
                { audioSource := audioSource, hasAudio := true,
                  audioCodecSetting :=
                    some { name := codec, channelNum := channelNum,
                           sampleRate := sampleRate } }
              match audioInfo.getField "optional" with
              | none => .ok base
              | some opt =>
                if !opt.isObj then .ok base
                else
                  match opt.getField "format" with
                  | none => .ok base
                  | some fmts =>
                    if !fmts.isArr then .ok base
                    else
                      match parseOptionalAudioFormats fmts.getVec with
                      | none => .bail
                      | some caps => .ok { base with audioCaps := caps }

/-- Model of the `std::stod` success condition on a bitrate-multiplier
remainder: `stod` throws (uncaught here) unless, after an optional
sign, the text starts with a digit or with a decimal point followed by
a digit. -/
def startsWithDigit (s : String) : Bool :=
  match s.data with
  | [] => false
  | c :: _ => c.isDigit

/-- Whether `std::stod` succeeds on the given text (see
`startsWithDigit`). -/
def stodParses (s : String) : Bool :=
  let r := if s.startsWith "+" || s.startsWith "-" then s.drop 1 else s
  startsWithDigit r || (r.startsWith "." && startsWithDigit (r.drop 1))

/-- The loop over the optional video `format` array (lines 1005-1016).
The codec name is read with no presence check
(`(*it)->get_map()["codec"]->get_string()`): a missing codec is a null
dereference (`.ub`). -/
def parseVideoCapFormats : List SioMsg → SectionRes (List VideoCodecParametersR)
  | [] => .ok []
  | f :: rest =>
    match f.getField "codec" with
    | none => .ub
    | some c =>
      let codecName := c.getStr
      let profile :=
        match f.getField "profile" with
        | some p => if p.isStrF then p.getStr else ""
        | none => ""
      match parseVideoCapFormats rest with
      | .ok tail => .ok ({ name := codecName, profile := profile } :: tail)
      | .ub => .ub
      | .bail => .bail

/-- The loop over the optional video `resolution` array (lines
1022-1027); `width`/`height` are read with no presence check. -/
def parseCapResolutions : List SioMsg → SectionRes (List ResolutionR)
  | [] => .ok []
  | r :: rest =>
    match r.getField "width", r.getField "height" with
    | some wv, some hv =>
      match parseCapResolutions rest with
      | .ok tail => .ok ({ w := wv.getInt, h := hv.getInt } :: tail)
      | .ub => .ub
      | .bail => .bail
    | _, _ => .ub

/-- The loop over the optional video `bitrate` array (lines 1039-1044):
`std::stod(bitrate_mul.substr(1))`.  `substr(1)` throws on an empty
string and `stod` throws on an unparsable remainder; both exceptions
are uncaught (`.ub`). -/
def parseCapBitrates : List SioMsg → SectionRes (List String)
  | [] => .ok []
  | b :: rest =>
    let s := b.getStr
    if s == "" then .ub
    else
      let r := s.drop 1
      if !stodParses r then .ub
      else
        match parseCapBitrates rest with
        | .ok tail => .ok (r :: tail)
        | .ub => .ub
        | .bail => .bail

/-- The video source string of a media block, exactly as
`ParseStreamInfo` extracts it (lines 950-953): `media.video.source`
when the video block is an object carrying a string source, else the
empty string. -/
def videoSourceOf (mediaInfo : SioMsg) : String :=
  match mediaInfo.getField "video" with
  | none => ""
  | some vi =>
    if !vi.isObj then ""
    else
      match vi.getField "source" with
      | some sm => if sm.isStrF then sm.getStr else ""
      | none => ""

/-- What the video part of `ParseStreamInfo` (lines 945-1058)
computes.  `videoCaps = none` models the default-constructed
`VideoSubscriptionCapabilities` left when the `optional` block is
absent. -/
structure VideoSectionR where
  videoSource : String := ""
  hasVideo : Bool := false
  videoSettings : Option VideoPublicationSettingsR := none
  videoCaps : Option VideoSubscriptionCapabilitiesR := none
deriving DecidableEq, Repr

/-- The video part of `ParseStreamInfo` except for the source string
(see `parseVideoSection`): yields (`has_video`, publication settings,
subscription capabilities).  Absent or non-object `video` is fine; a
present `video` must carry an object `format`, else bail.  The
publication codec name is read with no presence check (line 961): a
`format` object without `codec` is a null dereference (`.ub`). -/
def parseVideoSectionCore (mediaInfo : SioMsg) :
    SectionRes (Bool × Option VideoPublicationSettingsR ×
                Option VideoSubscriptionCapabilitiesR) :=
  match mediaInfo.getField "video" with
  | none => .ok (false, none, none)
  | some videoInfo =>
    if !videoInfo.isObj then .ok (false, none, none)
    else
      match videoInfo.getField "format" with
      | none => .bail
      | some fmt =>
        if !fmt.isObj then .bail
        else
          match fmt.getField "codec" with
          | none => .ub
          | some codecObj =>
            let codecName := codecObj.getStr
            let profileName :=
              match fmt.getField "profile" with
              | some p => if p.isStrF then p.getStr else ""
              | none => ""
            let base : VideoPublicationSettingsR :=
              { codec := { name := codecName, profile := profileName } }
            let settingsRes : SectionRes VideoPublicationSettingsR :=
              match videoInfo.getField "parameters" with
              | none => .ok base
              | some params =>
                if !params.isObj then .ok base
                else
                  let resRes : SectionRes (Option ResolutionR) :=
                    match params.getField "resolution" with
                    | none => .ok none
                    | some mr =>
                      if !mr.isObj then .ok none
                      else
                        match mr.getField "width", mr.getField "height" with
                        | some wv, some hv =>
                          .ok (some { w := wv.getInt, h := hv.getInt })
                        | _, _ => .ub
                  match resRes with
                  | .ub => .ub
                  | .bail => .bail
                  | .ok resOpt =>
                    let p1 := { base with resolution := resOpt }
                    let p2 :=
                      match params.getField "framerate" with
                      | some m => { p1 with frameRate := m.getInt }
                      | none => p1
                    let p3 :=
                      match params.getField "bitrate" with
                      | some m => { p2 with bitrate := m.getInt }
                      | none => p2
                    let p4 :=
                      match params.getField "keyFrameInterval" with
                      | some m => { p3 with keyframeInterval := m.getInt }
                      | none => p3
                    .ok p4
            match settingsRes with
            | .ub => .ub
            | .bail => .bail
            | .ok vps =>
              let capsRes : SectionRes (Option VideoSubscriptionCapabilitiesR) :=
                match videoInfo.getField "optional" with
                | none => .ok none
                | some opt =>
                  if !opt.isObj then .ok none
                  else
                    let codecsRes : SectionRes (List VideoCodecParametersR) :=
                      match opt.getField "format" with
                      | none => .ok []
                      | some fmts =>
                        if !fmts.isArr then .ok []
                        else parseVideoCapFormats fmts.getVec
                    match codecsRes with
                    | .ub => .ub
                    | .bail => .bail
                    | .ok codecs =>
                      match opt.getField "parameters" with
                      | none => .ok (some { codecs := codecs })
                      | some oparams =>
                        if !oparams.isObj then .ok (some { codecs := codecs })
                        else
                          let resolutionsRes : SectionRes (List ResolutionR) :=
                            match oparams.getField "resolution" with
                            | none => .ok []
                            | some ro =>
                              if !ro.isArr then .ok []
                              else parseCapResolutions ro.getVec
                          match resolutionsRes with
                          | .ub => .ub
                          | .bail => .bail
                          | .ok resolutions =>
                            let frameRates :=
                              match oparams.getField "framerate" with
                              | none => ([] : List Int)
                              | some fo =>
                                if fo.isArr then fo.getVec.map SioMsg.getInt
                                else []
                            let bitratesRes : SectionRes (List String) :=
                              match oparams.getField "bitrate" with
                              | none => .ok []
                              | some bo =>
                                if !bo.isArr then .ok []
                                else parseCapBitrates bo.getVec
                            match bitratesRes with
                            | .ub => .ub
                            | .bail => .bail
                            | .ok bitrates =>
                              let keyframes :=
                                match oparams.getField "keyFrameInterval" with
                                | none => ([] : List Int)
                                | some ko =>
                                  if ko.isArr then ko.getVec.map SioMsg.getInt
                                  else []
                              .ok (some { codecs := codecs,
                                          resolutions := resolutions,
                                          frameRates := frameRates,
                                          bitrateMultipliers := bitrates,
                                          keyframeIntervals := keyframes })
              match capsRes with
              | .ub => .ub
              | .bail => .bail
              | .ok capsOpt => .ok (true, some vps, capsOpt)

/-- The video part of `ParseStreamInfo` (lines 945-1058), combining the
extracted source string with `parseVideoSectionCore`. -/
def parseVideoSection (mediaInfo : SioMsg) : SectionRes VideoSectionR :=
  match parseVideoSectionCore mediaInfo with
  | .ub => .ub
  | .bail => .bail
  | .ok t =>
    .ok { videoSource := videoSourceOf mediaInfo, hasVideo := t.1,
          videoSettings := t.2.1, videoCaps := t.2.2 }

/-- The view label of a `mixed` stream payload (lines 851-859):
`info.label` when present as a string, else the empty string. -/
def mixedViewOf (streamInfo : SioMsg) (ty : String) : String :=
  if ty == "mixed" then
    match streamInfo.getField "info" with
    | some vi =>
      if vi.isObj then
        match vi.getField "label" with
        | some l => if l.isStrF then l.getStr else ""
        | none => ""
      else ""
    | none => ""
  else ""

/-- The owner id and attribute map of a `forward` stream payload
(lines 860-870): missing/non-object `info` bails out, a missing
`owner` is a null dereference. -/
def forwardInfoOf (streamInfo : SioMsg) (ty : String) :
    SectionRes (String × List (String × String)) :=
  if ty == "forward" then
    match streamInfo.getField "info" with
    | none => .bail
    | some pubInfo =>
      if !pubInfo.isObj then .bail
      else
        match pubInfo.getField "owner" with
        | none => .ub
        | some o => .ok (o.getStr, AttributesFromStreamInfo pubInfo)
  else .ok ("", [])

/-- The tail of `ParseStreamInfo` (lines 1060-1129): construct the
remote stream from the gathered data.  `forward` with a video source
other than `"screen-cast"` yields a camera stream; `forward` with
`"screen-cast"` yields a screen stream (its `has_video_` hard-coded to
`true`); `mixed` yields a mixed stream with owner `"mcu"` and both
sources `kMixed` (its attributes are never set). -/
def buildStream (id ty view ownerId : String) (attrs : List (String × String))
    (a : AudioSectionR) (v : VideoSectionR) :
    SectionRes (RemoteStreamR × StreamType) :=
  if ty == "forward" then
    if v.videoSource != "screen-cast" then
      .ok ({ sid := id, origin := ownerId, hasAudio := a.hasAudio,
             hasVideo := v.hasVideo, attributes := attrs,
             audioSource := (audioSourceNames.lookup a.audioSource).getD .unknown,
             videoSource := (videoSourceNames.lookup v.videoSource).getD .unknown,
             caps := { audioCodecs := a.audioCaps, video := v.videoCaps.getD {} },
             settings := { audioCodec := a.audioCodecSetting,
                           video := v.videoSettings } },
           StreamType.camera)
    else
      .ok ({ sid := id, origin := ownerId, hasAudio := a.hasAudio,
             hasVideo := true, attributes := attrs,
             audioSource := (audioSourceNames.lookup a.audioSource).getD .unknown,
             videoSource := (videoSourceNames.lookup v.videoSource).getD .unknown,
             caps := { audioCodecs := a.audioCaps, video := v.videoCaps.getD {} },
             settings := { audioCodec := a.audioCodecSetting,
                           video := v.videoSettings } },
           StreamType.screen)
  else if ty == "mixed" then
    .ok ({ sid := id, origin := "mcu", view := view, hasAudio := a.hasAudio,
           hasVideo := v.hasVideo,
           audioSource := .mixed, videoSource := .mixed,
           caps := { audioCodecs := a.audioCaps, video := v.videoCaps.getD {} },
           settings := { audioCodec := a.audioCodecSetting,
                         video := v.videoSettings } },
         StreamType.mix)
  else .bail

/-- The pure part of `ConferenceClient::ParseStreamInfo`: `id` and
`type` are read with no presence check (null dereference when
missing); a missing/non-object `media` block, an unknown `type`, or a
missing/non-object forward `info` block bails out; then the audio and
video sections run, and on completion the stream is built. -/
def parseStreamCore (streamInfo : SioMsg) :
    SectionRes (RemoteStreamR × StreamType) :=
  match streamInfo.getField "id" with
  | none => .ub
  | some idMsg =>
    match streamInfo.getField "media" with
    | none => .bail
    | some mediaInfo =>
      if !mediaInfo.isObj then .bail
      else
        match streamInfo.getField "type" with
        | none => .ub
        | some tyMsg =>
          if tyMsg.getStr != "mixed" && tyMsg.getStr != "forward" then .bail
          else
            match forwardInfoOf streamInfo tyMsg.getStr with
            | .ub => .ub
            | .bail => .bail
            | .ok ow =>
              match parseAudioSection mediaInfo with
              | .ub => .ub
              | .bail => .bail
              | .ok a =>
                match parseVideoSection mediaInfo with
                | .ub => .ub
                | .bail => .bail
                | .ok v =>
                  buildStream idMsg.getStr tyMsg.getStr
                    (mixedViewOf streamInfo tyMsg.getStr) ow.1 ow.2 a v

/-- Insert-or-assign on a string-keyed map (`unordered_map`
`operator[]` followed by assignment). -/
def mapSet {α : Type} (m : List (String × α)) (k : String) (v : α) :
    List (String × α) :=
  if m.any (fun p => p.1 == k) then
    m.map (fun p => if p.1 == k then (k, v) else p)
  else m ++ [(k, v)]

/-- `ConferenceClient::ParseStreamInfo` with its side effects: a bailed
parse leaves the state untouched with no deliveries; a built stream is
stored in `added_streams_` and `added_stream_type_`, added to the
conference info (undefined behavior when `current_conference_info_` is
null), and — only when not joining — an `OnStreamAdded` task is posted
for every observer.  Result (state, queued, direct). -/
def ParseStreamInfo (si : SioMsg) (joining : Bool) (s : ClientState) :
    SectionRes (ClientState × List Delivery × List Delivery) :=
  match parseStreamCore si with
  | .ub => .ub
  | .bail => .ok (s, [], [])
  | .ok rt =>
    if !s.confInfoSet then .ub
    else
      .ok ({ s with
              addedStreams := mapSet s.addedStreams rt.1.sid rt.1,
              addedStreamType := mapSet s.addedStreamType rt.1.sid rt.2,
              confStreams := ConferenceInfoAddStream s.confStreams rt.1 },
           (if joining then []
            else s.observers.map (fun o => Delivery.streamAdded o rt.1.sid)),
           [])

/-- The variant a `Subscribe` call dispatches to (which typed
`pcc->Subscribe` overload runs). -/
inductive SubscribeDispatch where
  | asMixed
  | asScreen
  | asCamera
deriving DecidableEq, Repr

/-- `ConferenceClient::Subscribe` (lines 356-440): null-stream check,
online check, presence check of the stream id in `added_stream_type_`
(failure when absent), then a fresh channel (session id still empty) is
appended to `subscribe_pcs_` and the overload matching the stored
variant tag runs.  Result (state, queued deliveries, dispatch). -/
def SubscribeOp (streamId : String) (streamNonNull hasOnFailure : Bool)
    (s : ClientState) : ClientState × List Delivery × Option SubscribeDispatch :=
  if !streamNonNull then
    (s,
     (if hasOnFailure then [Delivery.failureCb "Null pointer is not allowed."]
      else []),
     none)
  else if !s.connected then
    (s,
     (if hasOnFailure then
        [Delivery.failureCb "Conference server is not connected."]
      else []),
     none)
  else if !(s.addedStreamType.any (fun p => p.1 == streamId)) then
    (s,
     (if hasOnFailure then
        [Delivery.failureCb
          "Subscribing an invalid stream. Please check whether this stream is removed."]
      else []),
     none)
  else
    let s1 := { s with subscribePcs := s.subscribePcs ++ [""] }
    match s1.addedStreamType.lookup streamId with
    | some .mix => (s1, [], some .asMixed)
    | some .screen => (s1, [], some .asScreen)
    | some .camera => (s1, [], some .asCamera)
    | none => (s1, [], none)

/-- `ConferenceClient::TriggerOnUserJoined`: parse the user; on
success add to the conference info (undefined on a null
`current_conference_info_`) and — only when not joining — post an
`OnParticipantJoined` task per observer. -/
def TriggerOnUserJoined (userInfo : SioMsg) (joining : Bool) (s : ClientState) :
    SectionRes (ClientState × List Delivery) :=
  match ParseUser userInfo with
  | none => .ok (s, [])
  | some user =>
    if !s.confInfoSet then .ub
    else
      let s1 :=
        { s with participants := ConferenceInfoAddParticipant s.participants user }
      if joining then .ok (s1, [])
      else
        .ok (s1, s.observers.map (fun o => Delivery.participantJoined o user.pid))

/-- `ConferenceClient::TriggerOnUserLeft`: requires a string payload
(else ignored); fires the participant's own `OnLeft` callbacks
directly, then `RemoveParticipantById` — undefined behavior when the
id is unknown. -/
def TriggerOnUserLeft (userInfo : SioMsg) (s : ClientState) :
    SectionRes (ClientState × List Delivery) :=
  if !userInfo.isStrF then .ok (s, [])
  else
    let uid := userInfo.getStr
    if !s.confInfoSet then .ub
    else
      let ds := triggerParticipantLeftFirst s.participants uid
      match RemoveParticipantById s.participants uid with
      | none => .ub
      | some ps => .ok ({ s with participants := ps }, ds)

/-- `ConferenceClient::TriggerOnStreamRemoved`: reads `id` with no
presence check; returns ignoring the event when either
`added_streams_` or `added_stream_type_` lacks the id; else erases the
id from both maps, fires the stream's `OnEnded` (direct deliveries)
and removes it from the conference info (undefined when absent
there). -/
def TriggerOnStreamRemoved (si : SioMsg) (s : ClientState) :
    SectionRes (ClientState × List Delivery × List Delivery) :=
  match si.getField "id" with
  | none => .ub
  | some idMsg =>
    if !(s.addedStreams.any (fun p => p.1 == idMsg.getStr)) ||
       !(s.addedStreamType.any (fun p => p.1 == idMsg.getStr)) then
      .ok (s, [], [])
    else if !s.confInfoSet then .ub
    else
      match RemoveStreamById (markEndedFirst s.confStreams idMsg.getStr).1
          idMsg.getStr with
      | none => .ub
      | some cs =>
        .ok ({ s with
                addedStreams :=
                  s.addedStreams.eraseP (fun p => p.1 == idMsg.getStr),
                addedStreamType :=
                  s.addedStreamType.eraseP (fun p => p.1 == idMsg.getStr),
                confStreams := cs },
             [], (markEndedFirst s.confStreams idMsg.getStr).2)

/-- The per-element runs of `TriggerOnUserJoined` over the join
snapshot's `participants` array (second loop of the connect handler,
lines 268-270). -/
def runUserJoins : List SioMsg → Bool → ClientState →
    SectionRes (ClientState × List Delivery)
  | [], _, s => .ok (s, [])
  | u :: rest, joining, s =>
    match TriggerOnUserJoined u joining s with
    | .ub => .ub
    | .bail => .bail
    | .ok sq =>
      match runUserJoins rest joining sq.1 with
      | .ub => .ub
      | .bail => .bail
      | .ok sq2 => .ok (sq2.1, sq.2 ++ sq2.2)

/-- The per-element runs of `TriggerOnStreamAdded` (that is,
`ParseStreamInfo`) over the join snapshot's `streams` array (lines
277-281). -/
def runStreamAdds : List SioMsg → Bool → ClientState →
    SectionRes (ClientState × List Delivery × List Delivery)
  | [], _, s => .ok (s, [], [])
  | m :: rest, joining, s =>
    match ParseStreamInfo m joining s with
    | .ub => .ub
    | .bail => .bail
    | .ok sqd =>
      match runStreamAdds rest joining sqd.1 with
      | .ub => .ub
      | .bail => .bail
      | .ok sqd2 => .ok (sqd2.1, sqd.2.1 ++ sqd2.2.1, sqd.2.2 ++ sqd2.2.2)

/-- The failure deliveries posted when the self `id`/`user`/`role`
validation of the connect handler fails. -/
def joinFailDeliveries (hasOnFailure : Bool) : List Delivery :=
  if hasOnFailure then
    [Delivery.failureCb "Received invalid user info from MCU."]
  else []

/-- The state after the connect handler's self-identity step (lines
212-237): the connected flag is set, and when
`current_conference_info_` was null it is created together with the
self participant — note the source passes `(participant_id, role,
user_id)` at line 235, a different argument order than `ParseUser`
uses. -/
def joinSelfState (s0 : ClientState) (idMsg uMsg rMsg : SioMsg) : ClientState :=
  if !s0.confInfoSet then
    { s0 with
        connected := true,
        confInfoSet := true,
        selfParticipant :=
          some { pid := idMsg.getStr, userName := rMsg.getStr,
                 role := uMsg.getStr } }
  else { s0 with connected := true }

/-- The first loop over the snapshot `participants` array (lines
252-267): its body ends with a `break`, so only the first user is
handled — parsed and pushed directly into `participants_` (no
presence check); a failed parse posts a failure but processing
continues. -/
def joinFirstParticipant (users : List SioMsg) (hasOnFailure : Bool)
    (s1 : ClientState) : ClientState × List Delivery :=
  match users with
  | [] => (s1, [])
  | u :: _ =>
    match ParseUser u with
    | some user => ({ s1 with participants := s1.participants ++ [user] }, [])
    | none =>
      (s1,
       if hasOnFailure then
         [Delivery.failureCb "Failed to parse current user's info"]
       else [])

/-- The snapshot-participants step of the connect handler (lines
245-271): a non-array `participants` value is only logged; else the
first-participant loop runs, then `TriggerOnUserJoined(·, joining :=
true)` over every snapshot participant — notifications suppressed. -/
def joinSnapshotParticipants (partsMsg : SioMsg) (hasOnFailure : Bool)
    (s1 : ClientState) : SectionRes (ClientState × List Delivery) :=
  if !partsMsg.isArr then .ok (s1, [])
  else
    match runUserJoins partsMsg.getVec true
        (joinFirstParticipant partsMsg.getVec hasOnFailure s1).1 with
    | .ub => .ub
    | .bail => .bail
    | .ok sq =>
      .ok (sq.1, (joinFirstParticipant partsMsg.getVec hasOnFailure s1).2 ++ sq.2)

/-- The snapshot-streams step of the connect handler (lines 274-282):
a non-array `streams` value is only logged; else
`ParseStreamInfo(·, joining := true)` runs over every snapshot stream
— notifications suppressed. -/
def joinSnapshotStreams (strsMsg : SioMsg) (s2 : ClientState) :
    SectionRes (ClientState × List Delivery × List Delivery) :=
  if !strsMsg.isArr then .ok (s2, [], [])
  else runStreamAdds strsMsg.getVec true s2

/-- The connect-success lambda of `ConferenceClient::Join` (lines
211-289): set the connected flag; validate the self `id`/`user`/`role`
fields (each dereferenced with no null check; a wrong type posts the
invalid-user-info failure); create the conference info and self
participant if absent; require an object `room` (silently return
otherwise); run the snapshot-participants step, then the
snapshot-streams step (`room.participants` / `room.streams` are
dereferenced with no null check), and finally post the success
continuation — after everything the snapshot inserted. -/
def JoinConnectHandler (info : SioMsg) (hasOnSuccess hasOnFailure : Bool)
    (s0 : ClientState) : SectionRes (ClientState × List Delivery × List Delivery) :=
  match info.getField "id" with
  | none => .ub
  | some idMsg =>
    if !idMsg.isStrF then
      .ok ({ s0 with connected := true }, joinFailDeliveries hasOnFailure, [])
    else
      match info.getField "user" with
      | none => .ub
      | some uMsg =>
        if !uMsg.isStrF then
          .ok ({ s0 with connected := true }, joinFailDeliveries hasOnFailure, [])
        else
          match info.getField "role" with
          | none => .ub
          | some rMsg =>
            if !rMsg.isStrF then
              .ok ({ s0 with connected := true }, joinFailDeliveries hasOnFailure,
                   [])
            else
              match info.getField "room" with
              | none => .ok (joinSelfState s0 idMsg uMsg rMsg, [], [])
              | some roomInfo =>
                if !roomInfo.isObj then
                  .ok (joinSelfState s0 idMsg uMsg rMsg, [], [])
                else
                  match roomInfo.getField "participants" with
                  | none => .ub
                  | some partsMsg =>
                    match joinSnapshotParticipants partsMsg hasOnFailure
                        (joinSelfState s0 idMsg uMsg rMsg) with
                    | .ub => .ub
                    | .bail => .bail
                    | .ok su =>
                      match roomInfo.getField "streams" with
                      | none => .ub
                      | some strsMsg =>
                        match joinSnapshotStreams strsMsg su.1 with
                        | .ub => .ub
                        | .bail => .bail
                        | .ok sv =>
                          .ok (sv.1,
                               su.2 ++ sv.2.1 ++
                                 (if hasOnSuccess then [Delivery.joinSuccess]
                                  else []),
                               sv.2.2)

/- ---------------------------------------------------------------
Derived notions used by the claim statements.
--------------------------------------------------------------- -/

/-- Whether a delivery is a live-event notification
(`OnParticipantJoined` / `OnStreamAdded`). -/
def isLiveNotification : Delivery → Bool
  | .participantJoined _ _ => true
  | .streamAdded _ _ => true
  | _ => false

/-- The directly-invoked deliveries of an operation outcome (empty for
an outcome that never completes). -/
def directPart (r : SectionRes (ClientState × List Delivery × List Delivery)) :
    List Delivery :=
  match r with
  | .ok sqd => sqd.2.2
  | _ => []

/-- The declared `type` field of a stream payload, as the parser reads
it (`get_string` of the dereferenced field). -/
def declaredType (si : SioMsg) : Option String :=
  (si.getField "type").map SioMsg.getStr

/-- The media-level video source string of a stream payload: the
`videoSourceOf` extraction applied to its `media` block, empty when the
block is missing. -/
def mediaVideoSource (si : SioMsg) : String :=
  match si.getField "media" with
  | some mi => videoSourceOf mi
  | none => ""

/-- A stream payload carrying a video `format` block with no `codec`
field: `ParseStreamInfo` dereferences the missing codec
(`video_format_obj->get_map()["codec"]->get_string()`, line 961). -/
def missingVideoCodecPayload : SioMsg :=
  .obj [("id", .str "s1"), ("type", .str "forward"),
        ("media", .obj [("video", .obj [("format", .obj [])])]),
        ("info", .obj [("owner", .str "p1")])]

/-- A minimal well-formed `forward` stream payload with no media
sections: parses to a camera stream. -/
def forwardCameraPayloadW : SioMsg :=
  .obj [("id", .str "s1"), ("type", .str "forward"), ("media", .obj []),
        ("info", .obj [("owner", .str "p1")])]

/-- A minimal well-formed `mixed` stream payload. -/
def mixedStreamPayloadW : SioMsg :=
  .obj [("id", .str "s2"), ("type", .str "mixed"), ("media", .obj [])]

/-- A stream-removed payload naming an id no map contains. -/
def removeUnknownPayloadW : SioMsg :=
  .obj [("id", .str "zz")]

/-- The remote stream `mixedStreamPayloadW` parses to. -/
def rsW : RemoteStreamR :=
  { sid := "s2", origin := "mcu", audioSource := .mixed, videoSource := .mixed }

/-- The client state after parsing `mixedStreamPayloadW` from the state
with only the conference info set. -/
def aW : ClientState :=
  { confInfoSet := true, addedStreams := [("s2", rsW)],
    addedStreamType := [("s2", StreamType.mix)], confStreams := [rsW] }

/-- A minimal valid connect-result payload: self identity plus an
empty room snapshot. -/
def joinRoomInfoW : SioMsg :=
  .obj [("id", .str "p0"), ("user", .str "u0"), ("role", .str "presenter"),
        ("room", .obj [("participants", .arr []), ("streams", .arr [])])]

/-- The client state the connect handler reaches on `joinRoomInfoW`
from the fresh state. -/
def joinResultStateW : ClientState :=
  { connected := true, confInfoSet := true,
    selfParticipant :=
      some { pid := "p0", userName := "presenter", role := "u0" } }

/- ---------------------------------------------------------------
Theorems.
--------------------------------------------------------------- -/

/-- C3: while the signaling channel is connected, every `Join` call
leaves the whole client state — conference info, both session
registries, the observer set — untouched and posts exactly the
already-connected failure through the failure continuation (nothing at
all when no failure continuation was supplied); no delivery is invoked
directly. -/
theorem joinWhileConnectedRejected (hf : Bool) (s : ClientState) :
    Join hf { s with connected := true } =
      ({ s with connected := true },
       (if hf then
          [Delivery.failureCb "Already connected to conference server."]
        else []),
       []) := by
  simp [Join]

/-- C6: evaluation of `RemoveObserver` at an unregistered handle: with
observer 1 registered (or nobody registered), removing handle 2
(resp. 1) erases the end iterator — undefined behavior (`none`) — not a
safe no-op. -/
theorem removeObserverAbsentIsUndefined :
    removeObserver [1] 2 = none ∧ removeObserver [] 1 = none := by
  decide

/-- C7 counterexample: `RemoveParticipantById`/`RemoveStreamById` on an
id with no matching entry erase the end iterator — undefined behavior
(`none`) — instead of the claimed safe no-op that leaves the collection
unchanged. -/
theorem removeByIdAbsentIsUndefined_cex :
    RemoveParticipantById [] "p1" = none ∧ RemoveStreamById [] "s1" = none := by
  decide

/-- C7 amended: when an entry with the id is present,
`RemoveParticipantById`/`RemoveStreamById` erase exactly the first
matching entry (everything before it does not match and survives, as
does everything after it); when no entry matches, the call is
`vector::erase(end())` — undefined behavior — not a safe no-op. -/
theorem removeByIdErasesFirstMatch (ps : List ParticipantR)
    (ss : List RemoteStreamR) (pid sid : String)
    (hp : ps.any (fun p => p.pid == pid) = true)
    (hs : ss.any (fun r => r.sid == sid) = true) :
    (∃ l1 x l2, (∀ q ∈ l1, q.pid ≠ pid) ∧ x.pid = pid ∧ ps = l1 ++ x :: l2 ∧
       RemoveParticipantById ps pid = some (l1 ++ l2)) ∧
    (∃ l1 x l2, (∀ q ∈ l1, q.sid ≠ sid) ∧ x.sid = sid ∧ ss = l1 ++ x :: l2 ∧
       RemoveStreamById ss sid = some (l1 ++ l2)) := by
  constructor
  · obtain ⟨x, hx, hxp⟩ := List.any_eq_true.mp hp
    obtain ⟨a, l1, l2, h1, h2, h3, h4⟩ :=
      @List.exists_of_eraseP ParticipantR (fun q => q.pid == pid) ps x hx hxp
    refine ⟨l1, a, l2, ?_, ?_, h3, ?_⟩
    · intro q hq
      have := h1 q hq
      simpa using this
    · simpa using h2
    · simp only [RemoveParticipantById, hp, if_true, h4]
  · obtain ⟨x, hx, hxp⟩ := List.any_eq_true.mp hs
    obtain ⟨a, l1, l2, h1, h2, h3, h4⟩ :=
      @List.exists_of_eraseP RemoteStreamR (fun q => q.sid == sid) ss x hx hxp
    refine ⟨l1, a, l2, ?_, ?_, h3, ?_⟩
    · intro q hq
      have := h1 q hq
      simpa using this
    · simpa using h2
    · simp only [RemoveStreamById, hs, if_true, h4]

/-- C7 witness: the amended statement evaluated at one-element
collections containing the id. -/
theorem removeByIdErasesFirstMatch_witness :
    ([({ pid := "p1", userName := "u", role := "r" } : ParticipantR)].any
        (fun p => p.pid == "p1") = true) ∧
    ([({ sid := "s1", origin := "o" } : RemoteStreamR)].any
        (fun r => r.sid == "s1") = true) ∧
    ((∃ l1 x l2, (∀ q ∈ l1, ParticipantR.pid q ≠ "p1") ∧ x.pid = "p1" ∧
        [({ pid := "p1", userName := "u", role := "r" } : ParticipantR)] =
          l1 ++ x :: l2 ∧
        RemoveParticipantById
          [({ pid := "p1", userName := "u", role := "r" } : ParticipantR)] "p1" =
          some (l1 ++ l2)) ∧
     (∃ l1 x l2, (∀ q ∈ l1, RemoteStreamR.sid q ≠ "s1") ∧ x.sid = "s1" ∧
        [({ sid := "s1", origin := "o" } : RemoteStreamR)] = l1 ++ x :: l2 ∧
        RemoveStreamById
          [({ sid := "s1", origin := "o" } : RemoteStreamR)] "s1" =
          some (l1 ++ l2))) :=
  ⟨by decide, by decide,
   removeByIdErasesFirstMatch
     [{ pid := "p1", userName := "u", role := "r" }]
     [{ sid := "s1", origin := "o" }] "p1" "s1" (by decide) (by decide)⟩

/-- Helper: adding an already-registered handle leaves the registry
unchanged. -/
theorem addObserver_of_mem {l : List Nat} {o : Nat} (h : o ∈ l) :
    addObserver l o = l := by
  simp [addObserver, h]

/-- Helper: the handle is registered after an add. -/
theorem mem_addObserver (l : List Nat) (o : Nat) : o ∈ addObserver l o := by
  unfold addObserver
  split
  · assumption
  · simp

/-- Helper: once the handle is registered, any further sequence of adds
of that handle changes nothing. -/
theorem iterate_addObserver_of_mem {l : List Nat} {o : Nat} (h : o ∈ l) :
    ∀ k : Nat, Nat.iterate (fun t => addObserver t o) k l = l := by
  intro k
  induction k with
  | zero => rfl
  | succ n ih =>
    rw [Function.iterate_succ_apply, addObserver_of_mem h, ih]

/-- C8: `AddObserver` is idempotent — re-adding a handle is a no-op —
and after any positive number of adds of a handle that was not yet
registered, the registry holds exactly one registration for it. -/
theorem addObserverIdempotent (l : List Nat) (o : Nat) (n : Nat)
    (h1 : o ∉ l) (h2 : 0 < n) :
    List.count o (Nat.iterate (fun t => addObserver t o) n l) = 1 ∧
    ∀ t : List Nat, addObserver (addObserver t o) o = addObserver t o := by
  constructor
  · obtain ⟨m, rfl⟩ := Nat.exists_eq_succ_of_ne_zero (Nat.pos_iff_ne_zero.mp h2)
    rw [Function.iterate_succ_apply]
    have hadd : addObserver l o = l ++ [o] := by
      simp [addObserver, h1]
    rw [hadd, iterate_addObserver_of_mem (by simp)]
    simp [List.count_append, List.count_eq_zero_of_not_mem h1]
  · intro t
    exact addObserver_of_mem (mem_addObserver t o)

/-- C8 witness: the theorem evaluated with handle 2 added three times
to the registry `[5]`. -/
theorem addObserverIdempotent_witness :
    (2 : Nat) ∉ ([5] : List Nat) ∧ 0 < 3 ∧
    (List.count 2 (Nat.iterate (fun t => addObserver t 2) 3 [5]) = 1 ∧
     ∀ t : List Nat, addObserver (addObserver t 2) 2 = addObserver t 2) :=
  ⟨by decide, by decide, addObserverIdempotent [5] 2 3 (by decide) (by decide)⟩

/-- C5 counterexample: a confirmed `UnPublish` of session `"s1"`
removes the channel from `publish_pcs_` but leaves the
`publish_id_label_map_` entry for `"s1"` in place — the claimed purge
of both structures does not happen on the publish side. -/
theorem unpublishRetainsLabelEntry_cex :
    UnPublish "s1" true true ChannelOutcome.confirmed
        { connected := true, publishPcs := ["s1"],
          publishIdLabelMap := [("s1", "label1")] } =
      ({ connected := true, publishPcs := [],
         publishIdLabelMap := [("s1", "label1")] },
       [Delivery.unpublishSuccess], []) := by
  decide

/-- C5 amended: the purge happens only in the channel's success
callback — a failed channel outcome leaves the registries untouched —
and on success `UnSubscribe` removes both the channel-list entry and
the id-label entry, while `UnPublish` removes only the channel-list
entry (the publish id-label entry survives). -/
theorem unregisterPurgeDiscipline (s : ClientState) (l : List String)
    (sid : String) (hOS hOF : Bool) :
    (UnPublish sid hOS hOF ChannelOutcome.confirmed
        { s with connected := true, subscribePcs := [],
                 publishPcs := sid :: l } =
      ({ s with connected := true, subscribePcs := [], publishPcs := l },
       (if hOS then [Delivery.unpublishSuccess] else []), [])) ∧
    (UnSubscribe sid hOS hOF ChannelOutcome.confirmed
        { s with connected := true, subscribePcs := sid :: l } =
      ({ s with connected := true, subscribePcs := l,
                subscribeIdLabelMap :=
                  s.subscribeIdLabelMap.eraseP (fun p => p.1 == sid) },
       (if hOS then [Delivery.unsubscribeSuccess] else []), [])) ∧
    (UnPublish sid hOS hOF ChannelOutcome.failed
        { s with connected := true }).1 = { s with connected := true } ∧
    (UnSubscribe sid hOS hOF ChannelOutcome.failed
        { s with connected := true }).1 = { s with connected := true } := by
  refine ⟨?_, ?_, ?_, ?_⟩
  · simp [UnPublish, GetConferencePeerConnectionChannel, UnPublishSuccessEffect,
          List.find?, List.eraseP_cons]
  · simp [UnSubscribe, GetConferencePeerConnectionChannel,
          UnSubscribeSuccessEffect, List.find?, List.eraseP_cons]
  · unfold UnPublish
    split
    · simp_all
    · cases h : GetConferencePeerConnectionChannel { s with connected := true } sid <;>
        simp [h]
  · unfold UnSubscribe
    split
    · simp_all
    · cases h : GetConferencePeerConnectionChannel { s with connected := true } sid <;>
        simp [h]

/-- C2 counterexample: with one registered observer, `OnCustomMessage`
posts nothing onto the event dispatch queue and invokes the observer's
`OnMessageReceived` directly — contradicting the claim that every
notification goes through the queue and that no code path invokes an
observer callback directly. -/
theorem customMessageBypassesQueue_cex :
    (OnCustomMessage "alice" "hi" { observers := [1] }).1 = [] ∧
    (OnCustomMessage "alice" "hi" { observers := [1] }).2 =
      [Delivery.messageReceived 1 "alice" "hi"] ∧
    (OnCustomMessage "alice" "hi" { observers := [1] }).2 ≠ [] := by
  decide

/-- Helper: `ParseStreamInfo` never invokes a delivery directly — its
observer notifications are all posted through the event queue. -/
theorem parseStreamInfo_direct_nil (si : SioMsg) (joining : Bool)
    (s : ClientState) : directPart (ParseStreamInfo si joining s) = [] := by
  unfold ParseStreamInfo
  cases parseStreamCore si with
  | ub => rfl
  | bail => rfl
  | ok rt => by_cases h : s.confInfoSet <;> simp [directPart, h]

/-- C2 amended: the failure continuations and the snapshot-parsing
notifications go through the event dispatch queue (`ParseStreamInfo`
invokes nothing directly, `Join` invokes nothing directly, the
`UnPublish`/`UnSubscribe` paths invoke nothing directly and post their
success continuations), but `OnCustomMessage` fan-out, the
`OnServerDisconnected` notification and the `Publish`/`Subscribe`
success continuations are invoked directly, bypassing the queue. -/
theorem deliveryPathDiscipline :
    (∀ sender text s, OnCustomMessage sender text s =
        ([], s.observers.map (fun o => Delivery.messageReceived o sender text))) ∧
    (∀ s : ClientState, (OnServerDisconnected s).2 =
        ([], s.observers.map (fun o => Delivery.serverDisconnectedN o))) ∧
    (∀ sid, PublishSuccessCallback sid = ([], [Delivery.publishSuccess sid])) ∧
    (∀ sid, SubscribeSuccessCallback sid = ([], [Delivery.subscribeSuccess sid])) ∧
    (∀ hf s, (Join hf s).2.2 = []) ∧
    (∀ sid hOS hOF oc s, (UnPublish sid hOS hOF oc s).2.2 = []) ∧
    (∀ sid hOS hOF oc s, (UnSubscribe sid hOS hOF oc s).2.2 = []) ∧
    (∀ sid hOS s, (UnPublishSuccessEffect sid hOS s).2 =
        ((if hOS then [Delivery.unpublishSuccess] else []), [])) ∧
    (∀ sid hOS s, (UnSubscribeSuccessEffect sid hOS s).2 =
        ((if hOS then [Delivery.unsubscribeSuccess] else []), [])) ∧
    (∀ si joining s, directPart (ParseStreamInfo si joining s) = []) := by
  refine ⟨fun _ _ _ => rfl, fun _ => rfl, fun _ => rfl, fun _ => rfl,
          ?_, ?_, ?_, fun _ _ _ => rfl, fun _ _ _ => rfl,
          parseStreamInfo_direct_nil⟩
  · intro hf s
    unfold Join
    split <;> rfl
  · intro sid hOS hOF oc s
    unfold UnPublish
    split
    · rfl
    · cases GetConferencePeerConnectionChannel s sid with
      | none => rfl
      | some c =>
        cases oc with
        | confirmed => rfl
        | failed => rfl
  · intro sid hOS hOF oc s
    unfold UnSubscribe
    split
    · rfl
    · cases GetConferencePeerConnectionChannel s sid with
      | none => rfl
      | some c =>
        cases oc with
        | confirmed => rfl
        | failed => rfl

/-- C4: the failing input evaluated — a `forward` stream payload whose
video `format` block lacks the `codec` field makes `ParseStreamInfo`
dereference a null `message::ptr` (line 961) instead of returning with
zero side effects: the parse ends in undefined behavior, not in a clean
rejection. -/
theorem parseStreamMissingVideoCodecCrashes :
    parseStreamCore missingVideoCodecPayload = SectionRes.ub ∧
    ParseStreamInfo missingVideoCodecPayload false { confInfoSet := true } =
      SectionRes.ub := by
  decide

/-- Helper: a completed video section reports exactly the extracted
media video-source string. -/
theorem parseVideoSection_source (mi : SioMsg) (v : VideoSectionR)
    (h : parseVideoSection mi = SectionRes.ok v) :
    v.videoSource = videoSourceOf mi := by
  unfold parseVideoSection at h
  split at h
  · exact SectionRes.noConfusion h
  · exact SectionRes.noConfusion h
  · injection h with h1
    subst h1
    rfl

/-- C9: whenever `ParseStreamInfo` constructs a stream, the variant is
exactly determined by the payload: declared type `"mixed"` yields the
mixed variant, declared type `"forward"` yields the screen variant
when the media video source is `"screen-cast"` and the camera variant
otherwise. -/
theorem streamVariantDeterminedByType (si : SioMsg) (rs : RemoteStreamR)
    (sty : StreamType) (h : parseStreamCore si = SectionRes.ok (rs, sty)) :
    (declaredType si = some "mixed" → sty = StreamType.mix) ∧
    (declaredType si = some "forward" →
       (mediaVideoSource si = "screen-cast" → sty = StreamType.screen) ∧
       (mediaVideoSource si ≠ "screen-cast" → sty = StreamType.camera)) := by
  unfold parseStreamCore at h
  split at h
  · exact SectionRes.noConfusion h
  · rename_i idMsg hid
    split at h
    · exact SectionRes.noConfusion h
    · rename_i mediaInfo hmedia
      split at h
      · exact SectionRes.noConfusion h
      · rename_i hmobj
        split at h
        · exact SectionRes.noConfusion h
        · rename_i tyMsg htyf
          split at h
          · exact SectionRes.noConfusion h
          · rename_i htyk
            split at h
            · exact SectionRes.noConfusion h
            · exact SectionRes.noConfusion h
            · rename_i ow how
              split at h
              · exact SectionRes.noConfusion h
              · exact SectionRes.noConfusion h
              · rename_i a ha
                split at h
                · exact SectionRes.noConfusion h
                · exact SectionRes.noConfusion h
                · rename_i v hv
                  have hdty : declaredType si = some tyMsg.getStr := by
                    rw [declaredType, htyf]
                    rfl
                  have hmvs : mediaVideoSource si = v.videoSource := by
                    rw [mediaVideoSource, hmedia,
                        parseVideoSection_source mediaInfo v hv]
                  unfold buildStream at h
                  split at h
                  · rename_i hfw
                    have htyeq : tyMsg.getStr = "forward" := by simpa using hfw
                    split at h
                    · rename_i hnsc
                      simp only [SectionRes.ok.injEq, Prod.mk.injEq] at h
                      obtain ⟨-, hsty⟩ := h
                      refine ⟨?_, ?_⟩
                      · intro hm
                        rw [hdty, htyeq] at hm
                        simp at hm
                      · intro _
                        refine ⟨?_, fun _ => hsty.symm⟩
                        intro hscr
                        rw [hmvs] at hscr
                        simp [hscr] at hnsc
                    · rename_i hnsc
                      have hscr : v.videoSource = "screen-cast" := by
                        simpa using hnsc
                      simp only [SectionRes.ok.injEq, Prod.mk.injEq] at h
                      obtain ⟨-, hsty⟩ := h
                      refine ⟨?_, ?_⟩
                      · intro hm
                        rw [hdty, htyeq] at hm
                        simp at hm
                      · intro _
                        refine ⟨fun _ => hsty.symm, ?_⟩
                        intro hne
                        exact absurd (hmvs.trans hscr) hne
                  · split at h
                    · rename_i hfw hmx
                      have htyeq : tyMsg.getStr = "mixed" := by simpa using hmx
                      simp only [SectionRes.ok.injEq, Prod.mk.injEq] at h
                      obtain ⟨-, hsty⟩ := h
                      refine ⟨fun _ => hsty.symm, ?_⟩
                      intro hf2
                      rw [hdty, htyeq] at hf2
                      simp at hf2
                    · exact SectionRes.noConfusion h

/-- C9 witness: the minimal forward payload parses to the camera
variant, and the theorem's dispatch property holds for it. -/
theorem streamVariantDeterminedByType_witness :
    (declaredType forwardCameraPayloadW = some "mixed" →
       StreamType.camera = StreamType.mix) ∧
    (declaredType forwardCameraPayloadW = some "forward" →
       (mediaVideoSource forwardCameraPayloadW = "screen-cast" →
          StreamType.camera = StreamType.screen) ∧
       (mediaVideoSource forwardCameraPayloadW ≠ "screen-cast" →
          StreamType.camera = StreamType.camera)) :=
  streamVariantDeterminedByType forwardCameraPayloadW
    { sid := "s1", origin := "p1" } StreamType.camera (by decide)

/-- Helper: insert-or-assign extends the key list exactly when the key
is new, and leaves it unchanged otherwise. -/
theorem mapSet_keys {α : Type} (m : List (String × α)) (k : String) (v : α) :
    (mapSet m k v).map Prod.fst =
      (if m.any (fun p => p.1 == k) then m.map Prod.fst
       else m.map Prod.fst ++ [k]) := by
  unfold mapSet
  split
  · rw [List.map_map]
    refine List.map_congr_left ?_
    intro p _
    simp only [Function.comp_apply]
    split
    · rename_i hp
      exact (beq_iff_eq.mp hp).symm
    · rfl
  · simp

/-- Helper: presence of a key in an association list equals presence
in its key list. -/
theorem keys_any {α : Type} (m : List (String × α)) (k : String) :
    m.any (fun p => p.1 == k) = (m.map Prod.fst).any (fun x => x == k) := by
  induction m with
  | nil => rfl
  | cons p rest ih => simp [List.any_cons, ih]

/-- Helper: erasing by key commutes with taking the key list. -/
theorem eraseP_keys {α : Type} (m : List (String × α)) (k : String) :
    (m.eraseP (fun p => p.1 == k)).map Prod.fst =
      (m.map Prod.fst).eraseP (fun x => x == k) := by
  induction m with
  | nil => rfl
  | cons p rest ih =>
    by_cases hp : (p.1 == k) = true
    · simp [List.eraseP_cons, hp]
    · simp [List.eraseP_cons, hp, ih]

/-- Helper: a key present in the key list has a `lookup` hit. -/
theorem lookup_isSome_of_mem_keys {α : Type} (m : List (String × α))
    (k : String) (h : k ∈ m.map Prod.fst) : (m.lookup k).isSome := by
  induction m with
  | nil => simp at h
  | cons p rest ih =>
    rw [List.map_cons, List.mem_cons] at h
    by_cases hk : (k == p.1) = true
    · simp [List.lookup, hk]
    · rcases h with h1 | h2
      · exact absurd (beq_iff_eq.mpr h1) hk
      · simp only [List.lookup, hk]
        exact ih h2

/-- C10: `added_streams_` and `added_stream_type_` always hold the same
key list: both mutating operations (`ParseStreamInfo`, which inserts
into both, and `TriggerOnStreamRemoved`, which erases from both or from
neither) preserve the alignment, and under it every stream id present
in `added_streams_` has a variant tag to dispatch on. -/
theorem addedStreamMapsAligned (si sr : SioMsg) (joining : Bool)
    (s a b : ClientState) (q d q2 d2 : List Delivery)
    (hkeys : s.addedStreams.map Prod.fst = s.addedStreamType.map Prod.fst)
    (hp : ParseStreamInfo si joining s = SectionRes.ok (a, q, d))
    (hr : TriggerOnStreamRemoved sr s = SectionRes.ok (b, q2, d2)) :
    a.addedStreams.map Prod.fst = a.addedStreamType.map Prod.fst ∧
    b.addedStreams.map Prod.fst = b.addedStreamType.map Prod.fst ∧
    ∀ sid, sid ∈ s.addedStreams.map Prod.fst →
      (s.addedStreamType.lookup sid).isSome := by
  refine ⟨?_, ?_, ?_⟩
  · unfold ParseStreamInfo at hp
    split at hp
    · exact SectionRes.noConfusion hp
    · simp only [SectionRes.ok.injEq, Prod.mk.injEq] at hp
      obtain ⟨rfl, -, -⟩ := hp
      exact hkeys
    · rename_i rt hcore
      split at hp
      · exact SectionRes.noConfusion hp
      · simp only [SectionRes.ok.injEq, Prod.mk.injEq] at hp
        obtain ⟨rfl, -, -⟩ := hp
        show (mapSet s.addedStreams rt.1.sid rt.1).map Prod.fst =
          (mapSet s.addedStreamType rt.1.sid rt.2).map Prod.fst
        rw [mapSet_keys, mapSet_keys, keys_any, keys_any, hkeys]
  · unfold TriggerOnStreamRemoved at hr
    split at hr
    · exact SectionRes.noConfusion hr
    · rename_i idMsg hid
      split at hr
      · simp only [SectionRes.ok.injEq, Prod.mk.injEq] at hr
        obtain ⟨rfl, -, -⟩ := hr
        exact hkeys
      · split at hr
        · exact SectionRes.noConfusion hr
        · split at hr
          · exact SectionRes.noConfusion hr
          · rename_i cs hcs
            simp only [SectionRes.ok.injEq, Prod.mk.injEq] at hr
            obtain ⟨rfl, -, -⟩ := hr
            show (s.addedStreams.eraseP
                    (fun p => p.1 == idMsg.getStr)).map Prod.fst =
              (s.addedStreamType.eraseP
                    (fun p => p.1 == idMsg.getStr)).map Prod.fst
            rw [eraseP_keys, eraseP_keys, hkeys]
  · intro sid hsid
    exact lookup_isSome_of_mem_keys _ _ (hkeys ▸ hsid)

/-- C10 witness: the preservation applied to the empty-map state, a
mixed-stream insert and a removal event for an unknown id. -/
theorem addedStreamMapsAligned_witness :
    aW.addedStreams.map Prod.fst = aW.addedStreamType.map Prod.fst ∧
    (ClientState.addedStreams { confInfoSet := true }).map Prod.fst =
      (ClientState.addedStreamType { confInfoSet := true }).map Prod.fst ∧
    ∀ sid, sid ∈ (ClientState.addedStreams
        ({ confInfoSet := true } : ClientState)).map Prod.fst →
      ((ClientState.addedStreamType
          ({ confInfoSet := true } : ClientState)).lookup sid).isSome :=
  addedStreamMapsAligned mixedStreamPayloadW removeUnknownPayloadW false
    { confInfoSet := true } aW { confInfoSet := true } [] [] [] []
    (by decide) (by decide) (by decide)

/-- Helper: the failure deliveries of the self-identity validation are
never live-event notifications. -/
theorem joinFailDeliveries_no_live (hf : Bool) :
    ∀ dv ∈ joinFailDeliveries hf, isLiveNotification dv = false := by
  intro dv hdv
  cases hf with
  | false => simp [joinFailDeliveries] at hdv
  | true =>
    simp [joinFailDeliveries] at hdv
    rw [hdv]
    rfl

/-- Helper: a join-time (`joining = true`) user trigger posts no
deliveries. -/
theorem triggerOnUserJoined_joining_nil (u : SioMsg) (s : ClientState)
    (sq : ClientState × List Delivery)
    (h : TriggerOnUserJoined u true s = SectionRes.ok sq) : sq.2 = [] := by
  unfold TriggerOnUserJoined at h
  split at h
  · injection h with h1
    exact (congrArg Prod.snd h1).symm
  · split at h
    · exact SectionRes.noConfusion h
    · injection h with h1
      exact (congrArg Prod.snd h1).symm

/-- Helper: the join-time run over the snapshot participants posts no
deliveries. -/
theorem runUserJoins_joining_nil (users : List SioMsg) :
    ∀ (s : ClientState) (sq : ClientState × List Delivery),
      runUserJoins users true s = SectionRes.ok sq → sq.2 = [] := by
  induction users with
  | nil =>
    intro s sq h
    injection h with h1
    exact (congrArg Prod.snd h1).symm
  | cons u rest ih =>
    intro s sq h
    unfold runUserJoins at h
    split at h
    · exact SectionRes.noConfusion h
    · exact SectionRes.noConfusion h
    · rename_i sq1 h1
      split at h
      · exact SectionRes.noConfusion h
      · exact SectionRes.noConfusion h
      · rename_i sq2 h2
        injection h with h3
        have e1 := triggerOnUserJoined_joining_nil u s sq1 h1
        have e2 := ih sq1.1 sq2 h2
        have h4 : sq.2 = sq1.2 ++ sq2.2 := (congrArg Prod.snd h3).symm
        rw [h4, e1, e2]
        rfl

/-- Helper: a join-time (`joining = true`) stream parse posts and
invokes no deliveries. -/
theorem parseStreamInfo_joining_nil (si : SioMsg) (s : ClientState)
    (sqd : ClientState × List Delivery × List Delivery)
    (h : ParseStreamInfo si true s = SectionRes.ok sqd) :
    sqd.2.1 = [] ∧ sqd.2.2 = [] := by
  unfold ParseStreamInfo at h
  split at h
  · exact SectionRes.noConfusion h
  · injection h with h1
    exact ⟨(congrArg (fun x => x.2.1) h1).symm,
           (congrArg (fun x => x.2.2) h1).symm⟩
  · split at h
    · exact SectionRes.noConfusion h
    · injection h with h1
      exact ⟨(congrArg (fun x => x.2.1) h1).symm,
             (congrArg (fun x => x.2.2) h1).symm⟩

/-- Helper: the join-time run over the snapshot streams posts and
invokes no deliveries. -/
theorem runStreamAdds_joining_nil (ms : List SioMsg) :
    ∀ (s : ClientState) (sqd : ClientState × List Delivery × List Delivery),
      runStreamAdds ms true s = SectionRes.ok sqd →
      sqd.2.1 = [] ∧ sqd.2.2 = [] := by
  induction ms with
  | nil =>
    intro s sqd h
    injection h with h1
    exact ⟨(congrArg (fun x => x.2.1) h1).symm,
           (congrArg (fun x => x.2.2) h1).symm⟩
  | cons m rest ih =>
    intro s sqd h
    unfold runStreamAdds at h
    split at h
    · exact SectionRes.noConfusion h
    · exact SectionRes.noConfusion h
    · rename_i sqd1 h1
      split at h
      · exact SectionRes.noConfusion h
      · exact SectionRes.noConfusion h
      · rename_i sqd2 h2
        injection h with h3
        obtain ⟨e1, e2⟩ := parseStreamInfo_joining_nil m s sqd1 h1
        obtain ⟨e3, e4⟩ := ih sqd1.1 sqd2 h2
        have h4 : sqd.2.1 = sqd1.2.1 ++ sqd2.2.1 :=
          (congrArg (fun x => x.2.1) h3).symm
        have h5 : sqd.2.2 = sqd1.2.2 ++ sqd2.2.2 :=
          (congrArg (fun x => x.2.2) h3).symm
        constructor
        · rw [h4, e1, e3]
          rfl
        · rw [h5, e2, e4]
          rfl

/-- Helper: the first-participant loop posts either nothing or one
parse failure. -/
theorem joinFirstParticipant_snd (users : List SioMsg) (hf : Bool)
    (s : ClientState) :
    (joinFirstParticipant users hf s).2 = [] ∨
    (joinFirstParticipant users hf s).2 =
      [Delivery.failureCb "Failed to parse current user's info"] := by
  unfold joinFirstParticipant
  split
  · exact Or.inl rfl
  · split
    · exact Or.inl rfl
    · split
      · exact Or.inr rfl
      · exact Or.inl rfl

/-- Helper: the snapshot-participants step posts no live-event
notification (only, possibly, one parse failure). -/
theorem joinSnapshotParticipants_no_live (partsMsg : SioMsg) (hf : Bool)
    (s : ClientState) (su : ClientState × List Delivery)
    (h : joinSnapshotParticipants partsMsg hf s = SectionRes.ok su) :
    ∀ dv ∈ su.2, isLiveNotification dv = false := by
  unfold joinSnapshotParticipants at h
  split at h
  · intro dv hdv
    injection h with h1
    have h2 : su.2 = [] := (congrArg Prod.snd h1).symm
    rw [h2] at hdv
    simp at hdv
  · split at h
    · exact SectionRes.noConfusion h
    · exact SectionRes.noConfusion h
    · rename_i sq hq
      intro dv hdv
      injection h with h1
      have h2 : su.2 =
          (joinFirstParticipant partsMsg.getVec hf s).2 ++ sq.2 :=
        (congrArg Prod.snd h1).symm
      rw [h2, runUserJoins_joining_nil partsMsg.getVec _ sq hq,
          List.append_nil] at hdv
      rcases joinFirstParticipant_snd partsMsg.getVec hf s with he | he <;>
        rw [he] at hdv
      · simp at hdv
      · simp at hdv
        rw [hdv]
        rfl

/-- Helper: the snapshot-streams step posts and invokes no
deliveries. -/
theorem joinSnapshotStreams_nil (strsMsg : SioMsg) (s : ClientState)
    (sv : ClientState × List Delivery × List Delivery)
    (h : joinSnapshotStreams strsMsg s = SectionRes.ok sv) :
    sv.2.1 = [] ∧ sv.2.2 = [] := by
  unfold joinSnapshotStreams at h
  split at h
  · injection h with h1
    exact ⟨(congrArg (fun x => x.2.1) h1).symm,
           (congrArg (fun x => x.2.2) h1).symm⟩
  · exact runStreamAdds_joining_nil _ _ _ h

/-- C1: whatever the connect handler of `Join` completes with, its
queued deliveries contain no `OnParticipantJoined`/`OnStreamAdded`
notification at all (the snapshot inserts are performed with
notifications suppressed), nothing is invoked directly, and hence every
live notification in the queue — there is none — is preceded by the
success continuation: the success continuation is enqueued strictly
before any live notification for snapshot entities. -/
theorem joinSuccessPrecedesLiveEvents (info : SioMsg) (hs hf : Bool)
    (s sj : ClientState) (q d : List Delivery)
    (h : JoinConnectHandler info hs hf s = SectionRes.ok (sj, q, d)) :
    (∀ dv ∈ q, isLiveNotification dv = false) ∧ d = [] ∧
    (∀ i : Fin q.length, isLiveNotification (q.get i) = true →
       ∃ j : Fin q.length, (j : Nat) < (i : Nat) ∧
         q.get j = Delivery.joinSuccess) := by
  have key : (∀ dv ∈ q, isLiveNotification dv = false) ∧ d = [] := by
    unfold JoinConnectHandler at h
    split at h
    · exact SectionRes.noConfusion h
    · split at h
      · simp only [SectionRes.ok.injEq, Prod.mk.injEq] at h
        obtain ⟨-, hq, hd⟩ := h
        subst hq
        subst hd
        exact ⟨joinFailDeliveries_no_live hf, rfl⟩
      · split at h
        · exact SectionRes.noConfusion h
        · split at h
          · simp only [SectionRes.ok.injEq, Prod.mk.injEq] at h
            obtain ⟨-, hq, hd⟩ := h
            subst hq
            subst hd
            exact ⟨joinFailDeliveries_no_live hf, rfl⟩
          · split at h
            · exact SectionRes.noConfusion h
            · split at h
              · simp only [SectionRes.ok.injEq, Prod.mk.injEq] at h
                obtain ⟨-, hq, hd⟩ := h
                subst hq
                subst hd
                exact ⟨joinFailDeliveries_no_live hf, rfl⟩
              · split at h
                · simp only [SectionRes.ok.injEq, Prod.mk.injEq] at h
                  obtain ⟨-, hq, hd⟩ := h
                  subst hq
                  subst hd
                  exact ⟨by intro dv hdv; simp at hdv, rfl⟩
                · split at h
                  · simp only [SectionRes.ok.injEq, Prod.mk.injEq] at h
                    obtain ⟨-, hq, hd⟩ := h
                    subst hq
                    subst hd
                    exact ⟨by intro dv hdv; simp at hdv, rfl⟩
                  · split at h
                    · exact SectionRes.noConfusion h
                    · split at h
                      · exact SectionRes.noConfusion h
                      · exact SectionRes.noConfusion h
                      · rename_i su hsu
                        split at h
                        · exact SectionRes.noConfusion h
                        · split at h
                          · exact SectionRes.noConfusion h
                          · exact SectionRes.noConfusion h
                          · rename_i sv hsv
                            simp only [SectionRes.ok.injEq,
                                       Prod.mk.injEq] at h
                            obtain ⟨-, hq, hd⟩ := h
                            subst hq
                            subst hd
                            obtain ⟨hq1, hd1⟩ :=
                              joinSnapshotStreams_nil _ _ _ hsv
                            refine ⟨?_, hd1⟩
                            intro dv hdv
                            rw [hq1, List.append_nil] at hdv
                            rw [List.mem_append] at hdv
                            rcases hdv with h1 | h2
                            · exact joinSnapshotParticipants_no_live
                                _ _ _ _ hsu dv h1
                            · cases hs with
                              | true =>
                                simp at h2
                                rw [h2]
                                rfl
                              | false => simp at h2
  refine ⟨key.1, key.2, ?_⟩
  intro i hi
  have hmem := key.1 (q.get i) (List.get_mem q i.1 i.2)
  rw [hi] at hmem
  exact absurd hmem (by simp)

/-- C1 witness: the handler evaluated on a valid empty-room snapshot;
the queue holds exactly the success continuation and no live
notification. -/
theorem joinSuccessPrecedesLiveEvents_witness :
    (∀ dv ∈ [Delivery.joinSuccess], isLiveNotification dv = false) ∧
    ([] : List Delivery) = [] ∧
    (∀ i : Fin ([Delivery.joinSuccess]).length,
       isLiveNotification (([Delivery.joinSuccess]).get i) = true →
       ∃ j : Fin ([Delivery.joinSuccess]).length,
         (j : Nat) < (i : Nat) ∧
         ([Delivery.joinSuccess]).get j = Delivery.joinSuccess) :=
  joinSuccessPrecedesLiveEvents joinRoomInfoW true true {} joinResultStateW
    [Delivery.joinSuccess] [] (by decide)

end Oms
